import Mathlib

/-!
Shallow embedding of `falconlib.py` (client-side library for the Falcon API)
and verification of its specification's claims.

Python values that can appear in decoded JSON bodies and request payloads are
modelled by `PyVal`; network effects are modelled by passing a `Server` oracle
that supplies the responses the transport would return, and each embedded
method additionally returns the list of requests it issued (`List Req`) so
that dispatch behaviour (the 401 retry policy) is observable.
-/

/-- A Python value as used by the library: decoded JSON bodies, request
payloads and envelope payloads. `dict` is an association list of string keys. -/
inductive PyVal where
  | none : PyVal
  | bool : Bool → PyVal
  | int : Int → PyVal
  | str : String → PyVal
  | list : List PyVal → PyVal
  | dict : List (String × PyVal) → PyVal

/-- A Python `dict` with string keys, as an association list. -/
abbrev PyDict := List (String × PyVal)

/-- Python truthiness of the `isinstance(payload, dict)` test. -/
def PyVal.isDict : PyVal → Bool
  | .dict _ => true
  | _ => false

/-- The effect of Python's `d.pop(key, None)` on the dict itself: the dict
with the binding for `key` removed. -/
def dictPop (key : String) : PyDict → PyDict
  | [] => []
  | kv :: rest => if kv.fst = key then dictPop key rest else kv :: dictPop key rest

/-- Python's `d.get(key)` on a dict: the value bound to `key`, if any. -/
def dictGet (key : String) : PyDict → Option PyVal
  | [] => Option.none
  | kv :: rest => if kv.fst = key then Option.some kv.snd else dictGet key rest

/-- The `FalconStatus` pydantic model: the uniform response envelope. -/
structure FalconStatus where
  success : Bool
  message : String
  http_status : Nat
  payload : PyVal

/-- Embeds `_success`: build a success envelope; a non-dict payload is
wrapped under the key `value`. -/
def _success (http_status : Nat) (message : String) (payload : PyVal) : FalconStatus :=
  let payload := if payload.isDict then payload else PyVal.dict [("value", payload)]
  { success := true, message := message, http_status := http_status, payload := payload }

/-- Embeds `_error`: build an error envelope; a non-dict payload is
wrapped under the key `error`. -/
def _error (http_status : Nat) (message : String) (payload : PyVal) : FalconStatus :=
  let payload := if payload.isDict then payload else PyVal.dict [("error", payload)]
  { success := false, message := message, http_status := http_status, payload := payload }

/-- A transport response to an ordinary endpoint request: its status code,
its body decoded as JSON when the body parses as JSON (`r.json()`), and the
raw text body (`r.text`). -/
structure Response where
  status : Nat
  jsonBody : Option PyVal
  text : String

/-- The decoded JSON body of a 200 response from the token endpoint.  Per the
spec's external-interface section, a 200 credential exchange carries
`access_token`, `token_type` and `user_id`; `body` is the full decoded JSON
body (the dict the source binds to `user`). -/
structure TokenUser where
  access_token : String
  token_type : String
  user_id : String
  twilio_factor_id : Option String
  is_admin : Option Bool
  body : PyVal

/-- A transport response from the token endpoint (`POST {base}/users/token`).
When `status = 200` the decoded body is `user`; otherwise `fallback` is the
decoded-JSON-or-raw-text body that `__json_or_text` would produce. -/
structure AuthResponse where
  status : Nat
  user : TokenUser
  fallback : PyVal

/-- A request issued by the client, as recorded in a call's trace: either an
ordinary operation request (url and optional JSON body) or a credential
exchange posted to the token endpoint. -/
inductive Req where
  | opReq : String → Option PyVal → Req
  | tokenReq : Option String → Option String → Req

/-- A Python exception raised by an embedded method. -/
inductive PyErr where
  | valueError
  | jsonDecodeError

/-- The server oracle for one endpoint-wrapper call: `op n` is the response
to the n-th issue of the operation request, and `token` is the response the
token endpoint would give to a credential exchange made during the call. -/
structure Server where
  op : Nat → Response
  token : AuthResponse

/-- The value held in `last_response`: either an ordinary operation response
or a token-endpoint response. -/
inductive LastResp where
  | op : Response → LastResp
  | auth : AuthResponse → LastResp

/-- The mutable session state of a `FalconLib` instance. `auth_header` holds
the value of the `Authorization` header (the source stores the singleton dict
`Authorization: token_type + ' ' + auth_token`). -/
structure FalconLib where
  base_url : String
  version : String
  auth_token : Option String
  token_type : Option String
  auth_header : Option String
  username : Option String
  password : Option String
  user_id : Option String
  twilio_factor_id : Option String
  is_admin : Option Bool
  last_response : Option LastResp

namespace FalconLib

/-- Embeds `FalconLib.__init__`. -/
def init (base_url : String) (version : String) : FalconLib :=
  { base_url := base_url ++ "/api/v" ++ version
    version := version
    auth_token := Option.none
    token_type := Option.none
    auth_header := Option.none
    username := Option.none
    password := Option.none
    user_id := Option.none
    twilio_factor_id := Option.none
    is_admin := Option.none
    last_response := Option.none }

/-- Embeds `__json_or_text`: the decoded JSON body when the body parses,
else the raw text body. -/
def json_or_text (r : Response) : PyVal :=
  match r.jsonBody with
  | Option.some j => j
  | Option.none => PyVal.str r.text

/-- Result of a call to `authorize`/`reauthorize`: the new session state, the
returned envelope, and the requests issued. -/
structure AuthResult where
  state : FalconLib
  envelope : FalconStatus
  trace : List Req

/-- Embeds `FalconLib.authorize`.  The credential exchange is issued directly
with `requests.post` (never through `__httpop`); its response is `r`.  On 200
the token, token type, derived header, username, password and user id are all
assigned; on any other status the state is only touched by the
`last_response` assignment.  The source annotates `username`/`password` as
`str` but Python lets `reauthorize` pass `None`, so they are `Option String`
here. -/
def authorize (self : FalconLib) (username password : Option String) (r : AuthResponse) :
    AuthResult :=
  let self := { self with last_response := Option.some (LastResp.auth r) }
  if r.status = 200 then
    let user := r.user
    let self := { self with
      auth_token := Option.some user.access_token
      token_type := Option.some user.token_type
      auth_header := Option.some (user.token_type ++ " " ++ user.access_token)
      username := username
      password := password
      user_id := Option.some user.user_id
      twilio_factor_id := Option.some (user.twilio_factor_id.getD "")
      is_admin := Option.some (user.is_admin.getD false) }
    ⟨self, _success r.status "Authorized" user.body, [Req.tokenReq username password]⟩
  else
    ⟨self, _error r.status "Authorization failed" r.fallback, [Req.tokenReq username password]⟩

/-- Embeds `FalconLib.reauthorize`: re-invokes `authorize` with the stored
username and password (whatever they are, with no local check). -/
def reauthorize (self : FalconLib) (r : AuthResponse) : AuthResult :=
  authorize self self.username self.password r

/-- Result of `__httpop`: the new session state, the response handed back to
the endpoint wrapper, and the requests issued. -/
structure HttpResult where
  state : FalconLib
  resp : Response
  trace : List Req

/-- Embeds `FalconLib.__httpop`: issue the request; record the response as
`last_response`; if its status is exactly 401, reauthorize once, reissue the
identical request once, record that second response; return the final
response. -/
def __httpop (self : FalconLib) (url : String) (body : Option PyVal) (server : Server) :
    HttpResult :=
  let response := server.op 0
  let self := { self with last_response := Option.some (LastResp.op response) }
  if response.status = 401 then
    let ra := self.reauthorize server.token
    let response := server.op 1
    let self := { ra.state with last_response := Option.some (LastResp.op response) }
    ⟨self, response, Req.opReq url body :: ra.trace ++ [Req.opReq url body]⟩
  else
    ⟨self, response, [Req.opReq url body]⟩

/-- Embeds `FalconLib.__get`. -/
def __get (self : FalconLib) (url : String) (server : Server) : HttpResult :=
  self.__httpop (self.base_url ++ url) Option.none server

/-- Embeds `FalconLib.__post`. -/
def __post (self : FalconLib) (url : String) (data : PyVal) (server : Server) : HttpResult :=
  self.__httpop (self.base_url ++ url) (Option.some data) server

/-- Embeds `FalconLib.__put`. -/
def __put (self : FalconLib) (url : String) (data : PyVal) (server : Server) : HttpResult :=
  self.__httpop (self.base_url ++ url) (Option.some data) server

/-- Embeds `FalconLib.__delete`. -/
def __delete (self : FalconLib) (url : String) (server : Server) : HttpResult :=
  self.__httpop (self.base_url ++ url) Option.none server

/-- Embeds `FalconLib.__patch` (its `data` parameter defaults to `None`). -/
def __patch (self : FalconLib) (url : String) (data : Option PyVal) (server : Server) :
    HttpResult :=
  self.__httpop (self.base_url ++ url) data server

/-- Result of an endpoint-wrapper call: the new session state, either the
envelope it returned or the Python exception it raised, and the requests
issued. -/
structure CallResult where
  state : FalconLib
  result : Except PyErr FalconStatus
  trace : List Req

/-- Classify a dispatched response the way every endpoint wrapper does:
when the status equals the wrapper's expected success code, decode the body
with `r.json()` (raising `JSONDecodeError` when the body is not JSON) and
return a success envelope; otherwise return an error envelope whose payload
is `__json_or_text`. -/
def classify (h : HttpResult) (code : Nat) (okMsg errMsg : String) : CallResult :=
  let self := { h.state with last_response := Option.some (LastResp.op h.resp) }
  if h.resp.status = code then
    match h.resp.jsonBody with
    | Option.some j => ⟨self, Except.ok (_success h.resp.status okMsg j), h.trace⟩
    | Option.none => ⟨self, Except.error PyErr.jsonDecodeError, h.trace⟩
  else
    ⟨self, Except.ok (_error h.resp.status errMsg (json_or_text h.resp)), h.trace⟩

/-- Embeds `FalconLib.create_tracker` (success code 201). -/
def create_tracker (self : FalconLib) (tracker : PyDict) (server : Server) : CallResult :=
  classify (self.__post "/trackers" (PyVal.dict tracker) server) 201
    "Tracker created" "Tracker creation failed"

/-- Embeds `FalconLib.get_tracker` (success code 200). -/
def get_tracker (self : FalconLib) (tracker_id : String) (server : Server) : CallResult :=
  classify (self.__get ("/trackers?tracker_id=" ++ tracker_id) server) 200
    "Tracker retrieved" "Tracker retrieval failed"

/-- Result of `update_tracker`: besides the ordinary `CallResult` fields it
carries the final value of the caller-supplied `tracker` dict, because
`tracker.pop('documents', None)` mutates the caller's object in place. -/
structure UpdateTrackerResult where
  state : FalconLib
  result : Except PyErr FalconStatus
  trace : List Req
  tracker : PyDict

/-- Embeds `FalconLib.update_tracker` (success code 200): pops the
`documents` key from the caller's dict in place, then PUTs the dict. -/
def update_tracker (self : FalconLib) (tracker : PyDict) (server : Server) :
    UpdateTrackerResult :=
  let tracker := dictPop "documents" tracker
  let c := classify (self.__put "/trackers/" (PyVal.dict tracker) server) 200
    "Tracker updated" "Tracker update failed"
  ⟨c.state, c.result, c.trace, tracker⟩

/-- Embeds `FalconLib.delete_tracker` (success code 200). -/
def delete_tracker (self : FalconLib) (tracker_id : String) (server : Server) : CallResult :=
  classify (self.__delete ("/trackers?tracker_id=" ++ tracker_id) server) 200
    "Tracker deleted" "Tracker deletion failed"

/-- Embeds `FalconLib.add_document` (success code 201). -/
def add_document (self : FalconLib) (document : PyDict) (server : Server) : CallResult :=
  classify (self.__post "/documents" (PyVal.dict document) server) 201
    "Document added" "Document addition failed"

/-- Embeds `FalconLib.update_document` (success code 200); unlike
`update_tracker` it strips nothing from the payload. -/
def update_document (self : FalconLib) (document : PyDict) (server : Server) : CallResult :=
  classify (self.__put "/documents/" (PyVal.dict document) server) 200
    "Document updated" "Document update failed"

/-- Python truthiness of an optional string argument: `None` and the empty
string are falsy. -/
def truthy : Option String → Bool
  | Option.none => false
  | Option.some s => s != ""

/-- Embeds `FalconLib.get_document` (success code 200): raises `ValueError`
before any network request when neither `document_id` nor `path` is truthy;
otherwise requests by `doc_id` when `document_id` is truthy, else by `path`. -/
def get_document (self : FalconLib) (document_id path : Option String) (server : Server) :
    CallResult :=
  if ¬ (truthy document_id || truthy path) then
    ⟨self, Except.error PyErr.valueError, []⟩
  else
    let h := if truthy document_id then
        self.__get ("/documents/?doc_id=" ++ document_id.getD "") server
      else
        self.__get ("/documents/?path=" ++ path.getD "") server
    classify h 200 "Document retrieved" "Document retrieval failed"

/-- Embeds `FalconLib.link_document` (success code 202). -/
def link_document (self : FalconLib) (tracker_id document_id : String) (server : Server) :
    CallResult :=
  classify (self.__patch ("/trackers/" ++ tracker_id ++ "/documents/link/" ++ document_id)
    Option.none server) 202 "Document linked" "Document linking failed"

/-- Embeds `FalconLib.unlink_document` (success code 200). -/
def unlink_document (self : FalconLib) (tracker_id document_id : String) (server : Server) :
    CallResult :=
  classify (self.__patch ("/trackers/" ++ tracker_id ++ "/documents/unlink/" ++ document_id)
    Option.none server) 200 "Document unlinked" "Document unlinking failed"

end FalconLib

/-- One client operation together with the transport responses it observes:
the alphabet of the session-state transition system. -/
inductive Op where
  | auth : Option String → Option String → AuthResponse → Op
  | reauth : AuthResponse → Op
  | createTracker : PyDict → Server → Op
  | getTracker : String → Server → Op
  | updateTracker : PyDict → Server → Op
  | deleteTracker : String → Server → Op
  | addDocument : PyDict → Server → Op
  | updateDocument : PyDict → Server → Op
  | getDocument : Option String → Option String → Server → Op
  | linkDocument : String → String → Server → Op
  | unlinkDocument : String → String → Server → Op

/-- The session-state effect of one operation. -/
def step (s : FalconLib) : Op → FalconLib
  | .auth u p r => (s.authorize u p r).state
  | .reauth r => (s.reauthorize r).state
  | .createTracker t srv => (s.create_tracker t srv).state
  | .getTracker i srv => (s.get_tracker i srv).state
  | .updateTracker t srv => (s.update_tracker t srv).state
  | .deleteTracker i srv => (s.delete_tracker i srv).state
  | .addDocument d srv => (s.add_document d srv).state
  | .updateDocument d srv => (s.update_document d srv).state
  | .getDocument i p srv => (s.get_document i p srv).state
  | .linkDocument t d srv => (s.link_document t d srv).state
  | .unlinkDocument t d srv => (s.unlink_document t d srv).state

/-- The session state reached from a fresh client after a sequence of
operations. -/
def run (base_url version : String) (ops : List Op) : FalconLib :=
  ops.foldl step (FalconLib.init base_url version)

/-- The credential triple whose atomicity the spec asserts: bearer token,
token type and derived authorization header. -/
def credsOf (s : FalconLib) : Option String × Option String × Option String :=
  (s.auth_token, s.token_type, s.auth_header)

/-- The credential triple a successful credential exchange installs: the
token, the token type, and the header derived as `token_type + ' ' +
auth_token`. -/
def authCreds (u : TokenUser) : Option String × Option String × Option String :=
  (Option.some u.access_token, Option.some u.token_type,
   Option.some (u.token_type ++ " " ++ u.access_token))

/-- Whether an endpoint-wrapper call's dispatch performs a successful
reauthorization: the first response is a 401 and the token endpoint answers
200. -/
def opRetryAuthOk (srv : Server) : Bool :=
  ((srv.op 0).status == 401) && (srv.token.status == 200)

/-- Whether an operation contains a successful credential exchange (a token
endpoint call answered with 200). -/
def authExchangeSucceeded : Op → Bool
  | .auth _ _ r => r.status == 200
  | .reauth r => r.status == 200
  | .createTracker _ srv => opRetryAuthOk srv
  | .getTracker _ srv => opRetryAuthOk srv
  | .updateTracker _ srv => opRetryAuthOk srv
  | .deleteTracker _ srv => opRetryAuthOk srv
  | .addDocument _ srv => opRetryAuthOk srv
  | .updateDocument _ srv => opRetryAuthOk srv
  | .getDocument i p srv => (FalconLib.truthy i || FalconLib.truthy p) && opRetryAuthOk srv
  | .linkDocument _ _ srv => opRetryAuthOk srv
  | .unlinkDocument _ _ srv => opRetryAuthOk srv

/-- The token-endpoint user record an operation's credential exchange would
deliver (meaningful when the exchange succeeds). -/
def exchangeUser : Op → TokenUser
  | .auth _ _ r => r.user
  | .reauth r => r.user
  | .createTracker _ srv => srv.token.user
  | .getTracker _ srv => srv.token.user
  | .updateTracker _ srv => srv.token.user
  | .deleteTracker _ srv => srv.token.user
  | .addDocument _ srv => srv.token.user
  | .updateDocument _ srv => srv.token.user
  | .getDocument _ _ srv => srv.token.user
  | .linkDocument _ _ srv => srv.token.user
  | .unlinkDocument _ _ srv => srv.token.user

/-- The final transport response a single dispatched call yields: the second
response when the first was a 401, else the first. -/
def finalResp (server : Server) : Response :=
  if (server.op 0).status = 401 then server.op 1 else server.op 0

/-- The success flag a wrapper with the given expected code produces, as an
`Option Bool` (`none` when the call raises instead of returning an
envelope). -/
def successOutcome (server : Server) (code : Nat) : Option Bool :=
  if (finalResp server).status = code then (finalResp server).jsonBody.map fun _ => true
  else Option.some false

/-- The success flag of a wrapper call's outcome, `none` when the call
raised. -/
def resultSuccess : Except PyErr FalconStatus → Option Bool
  | Except.ok e => Option.some e.success
  | Except.error _ => Option.none

/-- The urls of the ordinary operation requests in a trace (credential
exchanges excluded). -/
def opUrls : List Req → List String
  | [] => []
  | Req.opReq url _ :: rest => url :: opUrls rest
  | Req.tokenReq _ _ :: rest => opUrls rest

/-- The urls one dispatched call issues for a single logical request to
`url`: the url twice when the first response is a 401 (retry), else once. -/
def issuedUrls (server : Server) (url : String) : List String :=
  if (server.op 0).status = 401 then [url, url] else [url]

/-- Whether a request's JSON body is a dict containing the given key. -/
def reqBodyHasKey (key : String) : Req → Bool
  | Req.opReq _ (Option.some (PyVal.dict kvs)) => (dictGet key kvs).isSome
  | _ => false

/-- The credential-presence invariant of the session state, on the
credential triple: the authorization header is present if and only if the
bearer token is, and likewise for the token type. -/
def goodCreds (c : Option String × Option String × Option String) : Prop :=
  c.2.2.isSome = c.1.isSome ∧ c.2.1.isSome = c.1.isSome

/-- The full credential state of a session, the part of the state that
`authorize` must not touch on failure: bearer token, token type,
authorization header, username, password and user id. -/
def credentialState (s : FalconLib) :
    Option String × Option String × Option String × Option String × Option String ×
      Option String :=
  (s.auth_token, s.token_type, s.auth_header, s.username, s.password, s.user_id)

/-- A sample decoded token-endpoint user record, for concrete witnesses. -/
def sampleUser : TokenUser :=
  { access_token := "tok"
    token_type := "Bearer"
    user_id := "uid"
    twilio_factor_id := Option.none
    is_admin := Option.none
    body := PyVal.dict [("access_token", PyVal.str "tok")] }

/-- A sample 200 token-endpoint response. -/
def authResp200 : AuthResponse :=
  { status := 200, user := sampleUser, fallback := PyVal.str "" }

/-- A sample 401 token-endpoint response. -/
def authResp401 : AuthResponse :=
  { status := 401, user := sampleUser, fallback := PyVal.str "unauthorized" }

/-- A freshly constructed client, before any authorization. -/
def freshClient : FalconLib := FalconLib.init "http://api" "1_0"

/-- A sample tracker dict that contains a `documents` key. -/
def sampleTracker : PyDict :=
  [("id", PyVal.str "t1"), ("documents", PyVal.list []), ("name", PyVal.str "T")]

/-- A sample server oracle that answers every operation request with a 200
JSON response. -/
def sampleServer : Server :=
  { op := fun _ => { status := 200, jsonBody := Option.some (PyVal.dict []), text := "" }
    token := authResp401 }

/-! ## Helper lemmas -/

theorem credsOf_set_last (s : FalconLib) (x : Option LastResp) :
    credsOf { s with last_response := x } = credsOf s := rfl

theorem classify_creds (h : FalconLib.HttpResult) (code : Nat) (a b : String) :
    credsOf (FalconLib.classify h code a b).state = credsOf h.state := by
  unfold FalconLib.classify
  split
  · split <;> rfl
  · rfl

theorem authorize_creds (s : FalconLib) (u p : Option String) (r : AuthResponse) :
    credsOf (s.authorize u p r).state =
      if r.status == 200 then authCreds r.user else credsOf s := by
  by_cases h : r.status = 200 <;>
    simp [FalconLib.authorize, credsOf, authCreds, h]

theorem httpop_creds (s : FalconLib) (url : String) (body : Option PyVal) (server : Server) :
    credsOf (s.__httpop url body server).state =
      if opRetryAuthOk server then authCreds server.token.user else credsOf s := by
  by_cases h : (server.op 0).status = 401
  · simp only [FalconLib.__httpop, FalconLib.reauthorize, h, if_true, eq_self_iff_true,
      credsOf_set_last, authorize_creds]
    by_cases h2 : server.token.status = 200 <;> simp [opRetryAuthOk, h, h2]
  · simp only [FalconLib.__httpop, h, if_false, credsOf_set_last]
    simp [opRetryAuthOk, h]

theorem httpop_resp (s : FalconLib) (url : String) (body : Option PyVal) (server : Server) :
    (s.__httpop url body server).resp = finalResp server := by
  by_cases h : (server.op 0).status = 401 <;>
    simp [FalconLib.__httpop, finalResp, h]

theorem classify_trace (h : FalconLib.HttpResult) (code : Nat) (a b : String) :
    (FalconLib.classify h code a b).trace = h.trace := by
  unfold FalconLib.classify
  split
  · split <;> rfl
  · rfl

theorem classify_success (h : FalconLib.HttpResult) (code : Nat) (a b : String) :
    resultSuccess (FalconLib.classify h code a b).result =
      if h.resp.status = code then h.resp.jsonBody.map fun _ => true
      else Option.some false := by
  unfold FalconLib.classify
  split
  · split <;> simp [resultSuccess, _success, *]
  · simp [resultSuccess, _error, *]

theorem classify_httpop_success (s : FalconLib) (url : String) (body : Option PyVal)
    (server : Server) (code : Nat) (a b : String) :
    resultSuccess (FalconLib.classify (s.__httpop url body server) code a b).result =
      successOutcome server code := by
  rw [classify_success, httpop_resp]
  rfl

theorem opUrls_httpop (s : FalconLib) (url : String) (body : Option PyVal) (server : Server) :
    opUrls (s.__httpop url body server).trace = issuedUrls server url := by
  by_cases h : (server.op 0).status = 401
  · by_cases h2 : server.token.status = 200 <;>
      simp [FalconLib.__httpop, FalconLib.reauthorize, FalconLib.authorize, issuedUrls,
        h, h2, opUrls]
  · simp [FalconLib.__httpop, issuedUrls, h, opUrls]

theorem dictGet_dictPop_self (key : String) (l : PyDict) :
    dictGet key (dictPop key l) = Option.none := by
  induction l with
  | nil => rfl
  | cons kv rest ih =>
    by_cases h : kv.fst = key
    · simp [dictPop, h, ih]
    · simp [dictPop, dictGet, h, ih]

theorem dictGet_dictPop_other (key k : String) (hk : k ≠ key) (l : PyDict) :
    dictGet k (dictPop key l) = dictGet k l := by
  induction l with
  | nil => rfl
  | cons kv rest ih =>
    by_cases h : kv.fst = key
    · have hne : ¬ kv.fst = k := by rw [h]; exact fun e => hk e.symm
      simp [dictPop, dictGet, h, hne, ih, Ne.symm hk]
    · by_cases h2 : kv.fst = k <;> simp [dictPop, dictGet, h, h2, ih, hk]

theorem step_creds (s : FalconLib) (op : Op) :
    credsOf (step s op) =
      if authExchangeSucceeded op then authCreds (exchangeUser op) else credsOf s := by
  cases op with
  | auth u p r =>
    simp only [step, authExchangeSucceeded, exchangeUser, authorize_creds]
  | reauth r =>
    simp only [step, FalconLib.reauthorize, authExchangeSucceeded, exchangeUser,
      authorize_creds]
  | createTracker t srv =>
    simp only [step, FalconLib.create_tracker, FalconLib.__post, authExchangeSucceeded,
      exchangeUser, classify_creds, httpop_creds]
  | getTracker i srv =>
    simp only [step, FalconLib.get_tracker, FalconLib.__get, authExchangeSucceeded,
      exchangeUser, classify_creds, httpop_creds]
  | updateTracker t srv =>
    simp only [step, FalconLib.update_tracker, FalconLib.__put, authExchangeSucceeded,
      exchangeUser, classify_creds, httpop_creds]
  | deleteTracker i srv =>
    simp only [step, FalconLib.delete_tracker, FalconLib.__delete, authExchangeSucceeded,
      exchangeUser, classify_creds, httpop_creds]
  | addDocument d srv =>
    simp only [step, FalconLib.add_document, FalconLib.__post, authExchangeSucceeded,
      exchangeUser, classify_creds, httpop_creds]
  | updateDocument d srv =>
    simp only [step, FalconLib.update_document, FalconLib.__put, authExchangeSucceeded,
      exchangeUser, classify_creds, httpop_creds]
  | getDocument i p srv =>
    cases hb : (FalconLib.truthy i || FalconLib.truthy p) with
    | false =>
      simp [step, FalconLib.get_document, authExchangeSucceeded, hb]
    | true =>
      cases hi : FalconLib.truthy i with
      | true =>
        simp [step, FalconLib.get_document, FalconLib.__get, authExchangeSucceeded,
          exchangeUser, classify_creds, httpop_creds, hb, hi]
      | false =>
        have hp : FalconLib.truthy p = true := by rw [hi] at hb; simpa using hb
        simp [step, FalconLib.get_document, FalconLib.__get, authExchangeSucceeded,
          exchangeUser, classify_creds, httpop_creds, hb, hi, hp]
  | linkDocument t d srv =>
    simp only [step, FalconLib.link_document, FalconLib.__patch, authExchangeSucceeded,
      exchangeUser, classify_creds, httpop_creds]
  | unlinkDocument t d srv =>
    simp only [step, FalconLib.unlink_document, FalconLib.__patch, authExchangeSucceeded,
      exchangeUser, classify_creds, httpop_creds]

theorem authCreds_good (u : TokenUser) : goodCreds (authCreds u) := ⟨rfl, rfl⟩

theorem foldl_step_good (ops : List Op) (s : FalconLib) (hs : goodCreds (credsOf s)) :
    goodCreds (credsOf (ops.foldl step s)) := by
  induction ops generalizing s with
  | nil => exact hs
  | cons op rest ih =>
    refine ih (step s op) ?_
    rw [step_creds]
    split
    · exact authCreds_good _
    · exact hs

/-! ## Claim theorems -/

/-- C1: for every request dispatched through `__httpop`, a
reauthorize-and-reissue cycle occurs if and only if the first response's
status is exactly 401, and at most once: the trace contains the retried
request (with one interposed credential exchange) exactly when the first
status is 401 and never a third attempt; the final response — the second one
after a 401, even when it is itself a 401, returned as-is — is both returned
to the caller and recorded as `last_response`. -/
theorem falcon_c1_httpop_retry_once (s : FalconLib) (url : String) (body : Option PyVal)
    (server : Server) :
    (s.__httpop url body server).resp = finalResp server ∧
    (s.__httpop url body server).state.last_response =
      Option.some (LastResp.op (finalResp server)) ∧
    (s.__httpop url body server).trace =
      (if (server.op 0).status = 401 then
        [Req.opReq url body, Req.tokenReq s.username s.password, Req.opReq url body]
      else [Req.opReq url body]) := by
  by_cases h : (server.op 0).status = 401
  · by_cases h2 : server.token.status = 200 <;>
      simp [FalconLib.__httpop, FalconLib.reauthorize, FalconLib.authorize, finalResp, h, h2]
  · simp [FalconLib.__httpop, finalResp, h]

/-- C7: the credential-exchange call made by `authorize` never passes
through the dispatcher's 401-retry wrapper: for every response status,
including 401, `authorize` issues exactly one request — the credential
exchange itself — and no operation request and no further credential
exchange, so it never recursively reauthorizes. -/
theorem falcon_c7_authorize_single_request (s : FalconLib)
    (username password : Option String) (r : AuthResponse) :
    (s.authorize username password r).trace = [Req.tokenReq username password] := by
  by_cases h : r.status = 200 <;> simp [FalconLib.authorize, h]

/-- C5: for every `authorize` call whose credential-exchange response has a
status other than 200, a failure envelope is returned (mirroring that
status) and the session's credential state — bearer token, token type,
authorization header, username, password, user id — is left unmodified. -/
theorem falcon_c5_auth_failure_no_mutation (s : FalconLib)
    (username password : Option String) (r : AuthResponse) (h : r.status ≠ 200) :
    (s.authorize username password r).envelope.success = false ∧
    (s.authorize username password r).envelope.http_status = r.status ∧
    credentialState (s.authorize username password r).state = credentialState s := by
  simp [FalconLib.authorize, _error, credentialState, h]

/-- Witness for C5 at a concrete failing exchange (status 401). -/
theorem falcon_c5_witness :
    authResp401.status ≠ 200 ∧
    ((freshClient.authorize (Option.some "u") (Option.some "p") authResp401).envelope.success
        = false ∧
      (freshClient.authorize (Option.some "u") (Option.some "p") authResp401).envelope.http_status
        = authResp401.status ∧
      credentialState
          (freshClient.authorize (Option.some "u") (Option.some "p") authResp401).state =
        credentialState freshClient) :=
  ⟨by decide,
    falcon_c5_auth_failure_no_mutation freshClient (Option.some "u") (Option.some "p")
      authResp401 (by decide)⟩

/-- C6 counterexample: in a freshly constructed session no prior successful
authorization has occurred (the stored password is absent), yet `reauthorize`
returns a success envelope when the token endpoint answers the
null-credential exchange with 200 — the claim that it fails rather than
succeeding is false, because the code performs no local check. -/
theorem falcon_c6_counterexample :
    freshClient.password = Option.none ∧
    (freshClient.reauthorize authResp200).envelope.success = true :=
  ⟨rfl, rfl⟩

/-- C6 (amended): when no prior successful authorization has occurred
(stored password absent), `reauthorize` performs no local check: it still
issues exactly one credential exchange carrying the absent password, and it
returns a failure envelope exactly when that exchange's response status is
not 200 (as a real token endpoint answers a null-credential exchange) — the
failure is contingent on the server, not guaranteed by the client. -/
theorem falcon_c6_reauthorize_no_local_check (s : FalconLib) (r : AuthResponse)
    (h : s.password = Option.none) :
    (s.reauthorize r).trace = [Req.tokenReq s.username Option.none] ∧
    ((s.reauthorize r).envelope.success = true ↔ r.status = 200) := by
  rw [← h]
  by_cases h2 : r.status = 200 <;>
    simp [FalconLib.reauthorize, FalconLib.authorize, _success, _error, h2]

/-- Witness for C6 (amended) at the fresh session and a rejected exchange. -/
theorem falcon_c6_witness :
    freshClient.password = Option.none ∧
    ((freshClient.reauthorize authResp401).trace =
        [Req.tokenReq freshClient.username Option.none] ∧
      ((freshClient.reauthorize authResp401).envelope.success = true ↔
        authResp401.status = 200)) :=
  ⟨rfl, falcon_c6_reauthorize_no_local_check freshClient authResp401 rfl⟩

/-- C3: in every session state reachable by any sequence of operations from
a fresh client, the derived authorization header is present if and only if
the bearer token is present (and likewise the token type); and a single
operation either leaves the token, token type and header untouched, or — 
exactly when it contains a successful authentication exchange — sets all
three together to the exchanged token, token type, and the header derived
from them, never independently. -/
theorem falcon_c3_credential_atomicity :
    (∀ (base_url version : String) (ops : List Op),
      ((run base_url version ops).auth_header.isSome =
          (run base_url version ops).auth_token.isSome) ∧
      ((run base_url version ops).token_type.isSome =
          (run base_url version ops).auth_token.isSome)) ∧
    (∀ (s : FalconLib) (op : Op),
      credsOf (step s op) =
        if authExchangeSucceeded op then authCreds (exchangeUser op) else credsOf s) := by
  constructor
  · intro base_url version ops
    exact foldl_step_good ops (FalconLib.init base_url version) ⟨rfl, rfl⟩
  · exact step_creds

/-- C4 counterexample: the success and error constructors do not wrap a
non-mapping payload under the same fixed key — `_success` wraps it under
`value` while `_error` wraps it under `error`, and those keys differ. -/
theorem falcon_c4_counterexample :
    (_success 200 "m" (PyVal.str "x")).payload = PyVal.dict [("value", PyVal.str "x")] ∧
    (_error 400 "m" (PyVal.str "x")).payload = PyVal.dict [("error", PyVal.str "x")] ∧
    ("value" : String) ≠ "error" :=
  ⟨rfl, rfl, by decide⟩

/-- C4 (amended): for every envelope constructed by `_success` or `_error`,
the payload field is a key-value mapping; when the underlying payload is not
a mapping it is wrapped under a single key fixed per constructor — `value`
in the success constructor and `error` in the error constructor — so the
mapping invariant always holds. -/
theorem falcon_c4_payload_mapping (http_status : Nat) (message : String) (payload : PyVal) :
    ((_success http_status message payload).payload.isDict = true ∧
      (_error http_status message payload).payload.isDict = true) ∧
    (payload.isDict = false →
      (_success http_status message payload).payload = PyVal.dict [("value", payload)] ∧
      (_error http_status message payload).payload = PyVal.dict [("error", payload)]) := by
  constructor
  · cases payload <;> simp [_success, _error, PyVal.isDict]
  · intro h
    simp [_success, _error, h]

/-- Witness for C4 (amended) at a concrete non-mapping payload. -/
theorem falcon_c4_witness :
    (PyVal.str "x").isDict = false ∧
    ((_success 200 "m" (PyVal.str "x")).payload = PyVal.dict [("value", PyVal.str "x")] ∧
      (_error 200 "m" (PyVal.str "x")).payload = PyVal.dict [("error", PyVal.str "x")]) :=
  ⟨rfl, (falcon_c4_payload_mapping 200 "m" (PyVal.str "x")).2 rfl⟩

/-- C2: for every envelope returned by an embedded operation, the success
flag is true exactly when the final transport status equals that operation's
single declared expected-success code — 201 for `create_tracker` and
`add_document`, 200 for reads, updates, deletes and `unlink_document`, 202
for `link_document` — and whenever the status differs from the declared code
the envelope's success field is false (`successOutcome` is `some false` in
that case and can only be `some true` when the status matches). -/
theorem falcon_c2_success_iff_declared_code (s : FalconLib) (server : Server)
    (tracker document : PyDict) (tracker_id document_id : String) :
    resultSuccess (s.create_tracker tracker server).result = successOutcome server 201 ∧
    resultSuccess (s.get_tracker tracker_id server).result = successOutcome server 200 ∧
    resultSuccess (s.update_tracker tracker server).result = successOutcome server 200 ∧
    resultSuccess (s.delete_tracker tracker_id server).result = successOutcome server 200 ∧
    resultSuccess (s.add_document document server).result = successOutcome server 201 ∧
    resultSuccess (s.update_document document server).result = successOutcome server 200 ∧
    resultSuccess (s.link_document tracker_id document_id server).result =
      successOutcome server 202 ∧
    resultSuccess (s.unlink_document tracker_id document_id server).result =
      successOutcome server 200 := by
  refine ⟨?_, ?_, ?_, ?_, ?_, ?_, ?_, ?_⟩ <;>
    simp [FalconLib.create_tracker, FalconLib.get_tracker, FalconLib.update_tracker,
      FalconLib.delete_tracker, FalconLib.add_document, FalconLib.update_document,
      FalconLib.link_document, FalconLib.unlink_document, FalconLib.__post, FalconLib.__get,
      FalconLib.__put, FalconLib.__delete, FalconLib.__patch, classify_httpop_success]

/-- C8: `get_document` called with neither a truthy document identifier nor
a truthy path raises `ValueError` synchronously — the state is untouched and
no request is issued; when the identifier is truthy the call behaves exactly
as if no path had been supplied (the identifier takes precedence) and every
request it issues goes to the `doc_id` url. -/
theorem falcon_c8_get_document_validation (s : FalconLib)
    (document_id path : Option String) (server : Server) :
    (s.get_document document_id path server =
      if FalconLib.truthy document_id then s.get_document document_id Option.none server
      else if FalconLib.truthy path then s.get_document Option.none path server
      else ⟨s, Except.error PyErr.valueError, []⟩) ∧
    (opUrls (s.get_document document_id path server).trace =
      if FalconLib.truthy document_id then
        issuedUrls server (s.base_url ++ ("/documents/?doc_id=" ++ document_id.getD ""))
      else if FalconLib.truthy path then
        issuedUrls server (s.base_url ++ ("/documents/?path=" ++ path.getD ""))
      else []) := by
  have tn : FalconLib.truthy Option.none = false := rfl
  cases hi : FalconLib.truthy document_id with
  | true =>
    constructor
    · simp [FalconLib.get_document, hi, tn]
    · simp [FalconLib.get_document, FalconLib.__get, hi, classify_trace, opUrls_httpop]
  | false =>
    cases hp : FalconLib.truthy path with
    | true =>
      constructor
      · simp [FalconLib.get_document, hi, hp, tn]
      · simp [FalconLib.get_document, FalconLib.__get, hi, hp, classify_trace, opUrls_httpop]
    | false =>
      constructor <;> simp [FalconLib.get_document, hi, hp, opUrls]

/-- C9: every request body `update_tracker` sends lacks the `documents` key,
for every input tracker dict and every server behaviour — the key is popped
from the payload before the PUT is dispatched. -/
theorem falcon_c9_update_tracker_strips_documents (s : FalconLib) (tracker : PyDict)
    (server : Server) :
    ((s.update_tracker tracker server).trace.all
      fun rq => ! reqBodyHasKey "documents" rq) = true := by
  by_cases h : (server.op 0).status = 401
  · by_cases h2 : server.token.status = 200 <;>
      simp [FalconLib.update_tracker, FalconLib.__put, FalconLib.__httpop,
        FalconLib.reauthorize, FalconLib.authorize, classify_trace, h, h2,
        reqBodyHasKey, dictGet_dictPop_self]
  · simp [FalconLib.update_tracker, FalconLib.__put, FalconLib.__httpop, classify_trace, h,
      reqBodyHasKey, dictGet_dictPop_self]

/-- C10: `update_tracker` mutates the caller's dict in place: for every
input dict, after the call returns (success or failure) the `documents` key
is absent from the caller-visible dict, while every other key keeps the
binding it had before the call. -/
theorem falcon_c10_update_tracker_mutates_caller (s : FalconLib) (tracker : PyDict)
    (server : Server) (k : String) (hk : k ≠ "documents") :
    dictGet "documents" (s.update_tracker tracker server).tracker = Option.none ∧
    dictGet k (s.update_tracker tracker server).tracker = dictGet k tracker := by
  constructor
  · simp [FalconLib.update_tracker, dictGet_dictPop_self]
  · simp [FalconLib.update_tracker, dictGet_dictPop_other "documents" k hk]

/-- Witness for C10 at a concrete tracker dict that contains a `documents`
key, checked for the unrelated key `name`. -/
theorem falcon_c10_witness :
    ("name" : String) ≠ "documents" ∧
    (dictGet "documents" (freshClient.update_tracker sampleTracker sampleServer).tracker =
        Option.none ∧
      dictGet "name" (freshClient.update_tracker sampleTracker sampleServer).tracker =
        dictGet "name" sampleTracker) :=
  ⟨by decide,
    falcon_c10_update_tracker_mutates_caller freshClient sampleTracker sampleServer "name"
      (by decide)⟩
